import Mathlib

/-!
Verification of the StepWise hint-progression engine against its
natural-language specification.

The definitions below are a shallow embedding of the Python sources under
`backend/services/` (`session_manager.py`, `understanding_evaluator.py`,
`hint_postprocessor.py`, `hint_generator.py`, `solution_generator.py`,
`problem_classifier.py`) together with the enumerations of
`backend/models/enums.py`.  Python strings are modelled as Lean `String`
(a list of unicode code points, matching Python's code-point semantics for
`len`, slicing and membership); Python dictionaries keyed by closed
enumerations are modelled as total functions or `match` tables; the
optional LLM collaborator is modelled as an explicit
`Option (String → LLMOutcome)` argument where `LLMOutcome` is either a
returned string or a raised exception.
-/

/-- Python-style lowercasing (`str.lower`).  `Char.toLower` agrees with
Python on the character sets actually used by the engine (ASCII plus CJK,
which `lower` leaves unchanged). -/
def pyLower (s : List Char) : List Char := s.map Char.toLower

/-- Whitespace characters recognised by Python's `str.strip` / regex `\s`
on the character sets used by the engine. -/
def isPySpace (c : Char) : Bool :=
  c = ' ' || c = '\t' || c = '\n' || c = '\r' || c = '\x0b' || c = '\x0c' ||
  c = ' ' || c = '　'

/-- Python `str.strip()` with no arguments: remove leading and trailing
whitespace. -/
def pyStrip (s : List Char) : List Char :=
  ((s.dropWhile isPySpace).reverse.dropWhile isPySpace).reverse

/-- Whether the second list is a prefix of the first, character by character. -/
def startsWithChars : List Char → List Char → Bool
  | _, [] => true
  | [], _ :: _ => false
  | b :: bs, a :: as => a = b && startsWithChars bs as

/-- Python `needle in hay` substring test. -/
def pyContains : List Char → List Char → Bool
  | [], needle => needle.isEmpty
  | c :: t, needle => startsWithChars (c :: t) needle || pyContains t needle

/-- Python `str.startswith` (prefix of code points). -/
def pyStartsWith (s pre : String) : Bool := startsWithChars s.data pre.data

/-- Python `str.split(sep)` with a non-empty separator, on code-point
lists.  Each step consumes at least one character, so a fuel of
`length + 1` always suffices. -/
def pySplitFuel (sep : List Char) : Nat → List Char → List Char → List (List Char)
  | 0, acc, s => [acc.reverse ++ s]
  | _ + 1, acc, [] => [acc.reverse]
  | fuel + 1, acc, c :: t =>
      if startsWithChars (c :: t) sep && !sep.isEmpty then
        acc.reverse :: pySplitFuel sep fuel [] (List.drop (sep.length - 1) t)
      else
        pySplitFuel sep fuel (c :: acc) t

/-- Python `str.split(sep)` with a non-empty separator. -/
def pySplit (sep s : List Char) : List (List Char) :=
  pySplitFuel sep (s.length + 1) [] s

/-- Split at the first occurrence of `sep`, if any (the work behind
Python `str.split(sep, 1)`). -/
def pySplitOnceChars (sep : List Char) : List Char → Option (List Char × List Char)
  | [] => none
  | c :: t =>
      if startsWithChars (c :: t) sep && !sep.isEmpty then
        some ([], List.drop (sep.length - 1) t)
      else
        match pySplitOnceChars sep t with
        | some r => some (c :: r.fst, r.snd)
        | none => none

/-- The `ProblemType` from `backend/models/enums.py`. -/
inductive ProblemType where
  | LINEAR_EQUATION_1VAR
  | LINEAR_EQUATION_2VAR
  | QUADRATIC_EQUATION
  | GEOMETRY_BASIC
  | ARITHMETIC
  | UNKNOWN
deriving DecidableEq, Repr, Fintype

/-- The `value` string of each `ProblemType` member. -/
def ProblemType.value : ProblemType → String
  | .LINEAR_EQUATION_1VAR => "linear_equation_1var"
  | .LINEAR_EQUATION_2VAR => "linear_equation_2var"
  | .QUADRATIC_EQUATION => "quadratic_equation"
  | .GEOMETRY_BASIC => "geometry_basic"
  | .ARITHMETIC => "arithmetic"
  | .UNKNOWN => "unknown"

/-- The `HintLayer` from `backend/models/enums.py`. -/
inductive HintLayer where
  | CONCEPT
  | STRATEGY
  | STEP
  | COMPLETED
  | REVEALED
deriving DecidableEq, Repr, Fintype

/-- The `SessionStatus` from `backend/models/enums.py`. -/
inductive SessionStatus where
  | ACTIVE
  | PAUSED
  | COMPLETED
  | REVEALED
  | ABANDONED
deriving DecidableEq, Repr, Fintype

/-- The `UnderstandingLevel` from `backend/models/enums.py`. -/
inductive UnderstandingLevel where
  | UNDERSTOOD
  | CONFUSED
  | EXPLICIT_CONFUSED
deriving DecidableEq, Repr, Fintype

/-! ## Session manager (`backend/services/session_manager.py`) -/

/-- The `LAYER_ORDER` module constant. -/
def LAYER_ORDER : List HintLayer := [.CONCEPT, .STRATEGY, .STEP]

/-- The `CONFUSION_THRESHOLD` module constant. -/
def CONFUSION_THRESHOLD : Nat := 3

/-- The `LayerTransition` dataclass. -/
structure LayerTransition where
  new_layer : HintLayer
  should_advance : Bool
  is_downgrade : Bool
  reset_confusion : Bool
deriving DecidableEq, Repr

namespace SessionManager

/-- The `SessionManager._handle_understood`.  The index arithmetic of the
Python source (`LAYER_ORDER.index` / `LAYER_ORDER[idx + 1]`) is rendered
as a direct match on the three ordered layers, which is extensionally the
same lookup. -/
def handle_understood (current_layer : HintLayer) : LayerTransition :=
  if current_layer ∈ LAYER_ORDER then
    match current_layer with
    | .CONCEPT =>
        { new_layer := .STRATEGY, should_advance := true
          is_downgrade := false, reset_confusion := true }
    | .STRATEGY =>
        { new_layer := .STEP, should_advance := true
          is_downgrade := false, reset_confusion := true }
    | _ =>
        { new_layer := .COMPLETED, should_advance := true
          is_downgrade := false, reset_confusion := true }
  else
    { new_layer := current_layer, should_advance := false
      is_downgrade := false, reset_confusion := true }

/-- The `SessionManager.determine_transition`.  `confusion_count` is a
non-negative integer (the spec's data model declares it `uint`). -/
def determine_transition (current_layer : HintLayer)
    (understanding_level : UnderstandingLevel)
    (confusion_count : Nat) : LayerTransition :=
  if understanding_level = .UNDERSTOOD then
    handle_understood current_layer
  else
    let new_confusion := confusion_count + 1
    if CONFUSION_THRESHOLD ≤ new_confusion then
      { new_layer := current_layer, should_advance := false
        is_downgrade := true, reset_confusion := false }
    else
      { new_layer := current_layer, should_advance := false
        is_downgrade := false, reset_confusion := false }

/-- The `SessionManager.get_next_sequence`. -/
def get_next_sequence (current_sequence : Nat) (is_same_layer : Bool) : Nat :=
  if is_same_layer then current_sequence + 1 else 1

/-- The `SessionManager.can_reveal_solution`. -/
def can_reveal_solution (current_layer : HintLayer) (status : SessionStatus) : Bool :=
  if status = .COMPLETED || status = .REVEALED then true
  else current_layer = .STEP

end SessionManager

/-- The transition function exactly as claim C2 words it (spec §4.6):
next ordered layer on `Understood` at Concept/Strategy, `Completed` on
`Understood` at Step, identity-with-reset at non-ordered layers, and the
stay/downgrade policy on confusion. -/
def determineTransitionSpecC2 (current_layer : HintLayer)
    (understanding_level : UnderstandingLevel)
    (confusion_count : Nat) : LayerTransition :=
  match understanding_level with
  | .UNDERSTOOD =>
      match current_layer with
      | .CONCEPT =>
          { new_layer := .STRATEGY, should_advance := true
            is_downgrade := false, reset_confusion := true }
      | .STRATEGY =>
          { new_layer := .STEP, should_advance := true
            is_downgrade := false, reset_confusion := true }
      | .STEP =>
          { new_layer := .COMPLETED, should_advance := true
            is_downgrade := false, reset_confusion := true }
      | l =>
          { new_layer := l, should_advance := false
            is_downgrade := false, reset_confusion := true }
  | _ =>
      { new_layer := current_layer, should_advance := false
        is_downgrade := decide (confusion_count + 1 ≥ 3)
        reset_confusion := false }

/-! ## Understanding evaluator (`backend/services/understanding_evaluator.py`)

`UnderstandingEvaluator.KEYWORDS_BY_TYPE` is a class-level (shared,
mutable) dictionary which `_find_matching_keywords` extends in place on
every call.  The embedding therefore threads the table explicitly: a
`KwTable` is the current contents of the dictionary, and `evaluateS`
returns the updated table alongside the result.  Python's
`list(set(matched))` returns the distinct matches in unspecified order,
so the embedding keeps the deduplicated match list and all theorems about
it are stated at the level of the underlying set. -/

/-- The `EvaluationResult` dataclass. -/
structure EvaluationResult where
  understanding_level : UnderstandingLevel
  char_count : Nat
  keywords_matched : List String
deriving DecidableEq, Repr

/-- Contents of the shared `KEYWORDS_BY_TYPE` class dictionary. -/
def KwTable := ProblemType → List String

namespace UnderstandingEvaluator

/-- The `MIN_RESPONSE_LENGTH` class constant. -/
def MIN_RESPONSE_LENGTH : Nat := 10

/-- The `EXPLICIT_CONFUSION_PHRASES` class constant. -/
def EXPLICIT_CONFUSION_PHRASES : List String :=
  ["不懂", "不知道", "不会", "不明白", "看不懂", "搞不懂", "不理解", "没听懂",
   "不太懂", "看不明白"]

/-- Initial contents of the `KEYWORDS_BY_TYPE` class dictionary. -/
def KEYWORDS_BY_TYPE : KwTable
  | .LINEAR_EQUATION_1VAR =>
      ["移项", "等式", "方程", "未知数", "解", "x", "两边", "系数", "常数",
       "合并", "同类项"]
  | .QUADRATIC_EQUATION =>
      ["因式", "分解", "配方", "求根公式", "判别式", "二次", "根", "解", "方程"]
  | .LINEAR_EQUATION_2VAR => ["消元", "代入", "方程组", "未知数", "解"]
  | .GEOMETRY_BASIC =>
      ["面积", "周长", "公式", "角", "边", "直角", "三角形", "圆", "正方形", "矩形"]
  | .ARITHMETIC => ["加", "减", "乘", "除", "运算", "顺序", "括号"]
  | .UNKNOWN => ["方法", "步骤", "思路", "解决"]

/-- The `UnderstandingEvaluator._contains_explicit_confusion`. -/
def contains_explicit_confusion (text : List Char) : Bool :=
  let text_lower := pyLower text
  EXPLICIT_CONFUSION_PHRASES.any (fun p => pyContains text_lower p.data)

/-- The `UnderstandingEvaluator._find_matching_keywords`: the in-place
`keywords.extend(...)` mutation is returned as the updated table. -/
def find_matching_keywords (table : KwTable) (text : List Char)
    (problem_type : ProblemType) : List String × KwTable :=
  let keywords := table problem_type ++ table .UNKNOWN
  let table' : KwTable := fun t => if t = problem_type then keywords else table t
  let text_lower := pyLower text
  let matched := keywords.filter (fun kw => pyContains text_lower (pyLower kw.data))
  (matched.dedup, table')

/-- The `UnderstandingEvaluator.evaluate` with the shared dictionary threaded
explicitly.  `layer` is accepted but unused, as in the source. -/
def evaluateS (table : KwTable) (response_text : String)
    (problem_type : ProblemType) (_layer : HintLayer) :
    EvaluationResult × KwTable :=
  let text := pyStrip response_text.data
  let char_count := text.length
  if contains_explicit_confusion text then
    ({ understanding_level := .EXPLICIT_CONFUSED, char_count := char_count
       keywords_matched := [] }, table)
  else if char_count < MIN_RESPONSE_LENGTH then
    ({ understanding_level := .CONFUSED, char_count := char_count
       keywords_matched := [] }, table)
  else
    let r := find_matching_keywords table text problem_type
    if r.fst ≠ [] then
      ({ understanding_level := .UNDERSTOOD, char_count := char_count
         keywords_matched := r.fst }, r.snd)
    else
      ({ understanding_level := .CONFUSED, char_count := char_count
         keywords_matched := [] }, r.snd)

/-- The `UnderstandingEvaluator.evaluate` on a freshly constructed evaluator
(class dictionary in its initial state). -/
def evaluate (response_text : String) (problem_type : ProblemType)
    (layer : HintLayer) : EvaluationResult :=
  (evaluateS KEYWORDS_BY_TYPE response_text problem_type layer).fst

/-- Running a sequence of `evaluate` calls, accumulating the shared
dictionary's mutations. -/
def runCalls : KwTable → List (String × ProblemType × HintLayer) → KwTable
  | table, [] => table
  | table, (s, pt, l) :: rest => runCalls (evaluateS table s pt l).snd rest

end UnderstandingEvaluator

/-- The evaluator exactly as claim C4 words it (spec §4.5): explicit
confusion first, then the length threshold, then case-insensitive
substring matching against the union of the problem-type keyword list and
the `Unknown` keyword list. -/
def evaluateSpecC4 (response_text : String) (problem_type : ProblemType)
    (_layer : HintLayer) : EvaluationResult :=
  let text := pyStrip response_text.data
  let cc := text.length
  if UnderstandingEvaluator.contains_explicit_confusion text then
    { understanding_level := .EXPLICIT_CONFUSED, char_count := cc
      keywords_matched := [] }
  else if cc < 10 then
    { understanding_level := .CONFUSED, char_count := cc
      keywords_matched := [] }
  else
    let union := UnderstandingEvaluator.KEYWORDS_BY_TYPE problem_type ++
      UnderstandingEvaluator.KEYWORDS_BY_TYPE .UNKNOWN
    let matched :=
      (union.filter (fun kw => pyContains (pyLower text) (pyLower kw.data))).dedup
    if matched ≠ [] then
      { understanding_level := .UNDERSTOOD, char_count := cc
        keywords_matched := matched }
    else
      { understanding_level := .CONFUSED, char_count := cc
        keywords_matched := [] }


/-- Invariant on reachable states of the shared keyword dictionary: the
set of keywords considered for each problem type (its own list together
with the `Unknown` list) never changes, even though the lists themselves
grow. -/
def KwInv (t : KwTable) : Prop :=
  ∀ pt : ProblemType,
    (t pt ++ t .UNKNOWN).toFinset =
      (UnderstandingEvaluator.KEYWORDS_BY_TYPE pt ++
        UnderstandingEvaluator.KEYWORDS_BY_TYPE .UNKNOWN).toFinset


/-! ## Content safety filter (`backend/services/hint_postprocessor.py`)

The four `ANSWER_PATTERNS` regexes share one shape: a fixed sequence of
single-character classes (`lead`), optional whitespace, a second fixed
sequence (`mid`, only non-empty for the first pattern's `=`), optional
whitespace, an optional minus sign, and one-or-more digits.  For this
shape Python's backtracking leftmost/greedy semantics coincide with the
deterministic greedy matcher below, because each whitespace star is
followed by a non-whitespace class and the optional minus can only
succeed when digits follow. -/

/-- A single-character class of a leak pattern. -/
def CharClass := Char → Bool

/-- One of the `ANSWER_PATTERNS` (see the shape description above). -/
structure LeakPat where
  lead : List CharClass
  mid : List CharClass

/-- Match a fixed sequence of single-character classes, returning the
number of consumed characters and the rest. -/
def matchClasses : List CharClass → List Char → Option (Nat × List Char)
  | [], s => some (0, s)
  | _ :: _, [] => none
  | p :: ps, c :: cs =>
      if p c then (matchClasses ps cs).map (fun r => (r.fst + 1, r.snd)) else none

/-- Greedily consume `\s*`. -/
def countSpaces (s : List Char) : Nat × List Char :=
  ((s.takeWhile isPySpace).length, s.dropWhile isPySpace)

/-- Greedily consume `\d+` (at least one ASCII digit, the only digits
occurring in the engine's data). -/
def matchDigits (s : List Char) : Option (Nat × List Char) :=
  let d := s.takeWhile Char.isDigit
  if d.isEmpty then none else some (d.length, s.dropWhile Char.isDigit)

/-- Greedily consume `-?\d+`, returning the matched length. -/
def matchSignedInt : List Char → Option Nat
  | '-' :: rest =>
      match matchDigits rest with
      | some r => some (r.fst + 1)
      | none => none
  | s => (matchDigits s).map Prod.fst

/-- Length of the (leftmost-greedy) match of a leak pattern starting at
the head of `s`, if any. -/
def leakMatchLenAt (p : LeakPat) (s : List Char) : Option Nat :=
  match matchClasses p.lead s with
  | none => none
  | some r1 =>
    let w1 := countSpaces r1.snd
    match matchClasses p.mid w1.snd with
    | none => none
    | some r2 =>
      let w2 := countSpaces r2.snd
      match matchSignedInt w2.snd with
      | none => none
      | some n => some (r1.fst + w1.fst + r2.fst + w2.fst + n)

/-- Python `re.search`: does the pattern match at some position? -/
def leakSearch (p : LeakPat) : List Char → Bool
  | [] => (leakMatchLenAt p []).isSome
  | c :: t => (leakMatchLenAt p (c :: t)).isSome || leakSearch p t

/-- Python `re.sub(pattern, "[...]", s)`: replace every non-overlapping
leftmost match.  Each match consumes at least one character, so a fuel of
`s.length` always suffices. -/
def leakSubFuel (p : LeakPat) : Nat → List Char → List Char
  | 0, s => s
  | _ + 1, [] => []
  | fuel + 1, c :: t =>
      match leakMatchLenAt p (c :: t) with
      | some n => "[...]".data ++ leakSubFuel p fuel (List.drop (n - 1) t)
      | none => c :: leakSubFuel p fuel t

/-- Python `re.sub(pattern, "[...]", s)`. -/
def leakSub (p : LeakPat) (s : List Char) : List Char := leakSubFuel p s.length s

/-- Python `str.replace(needle, repl)` (all non-overlapping occurrences,
left to right).  The engine only calls it with a non-empty needle. -/
def pyReplaceFuel (needle repl : List Char) : Nat → List Char → List Char
  | 0, s => s
  | _ + 1, [] => []
  | fuel + 1, c :: t =>
      if startsWithChars (c :: t) needle && !needle.isEmpty then
        repl ++ pyReplaceFuel needle repl fuel (List.drop (needle.length - 1) t)
      else c :: pyReplaceFuel needle repl fuel t

/-- Python `str.replace(needle, repl)`. -/
def pyReplace (s needle repl : List Char) : List Char :=
  pyReplaceFuel needle repl s.length s

/-- The `PostProcessResult` dataclass. -/
structure PostProcessResult where
  content : String
  was_filtered : Bool
  filter_reason : Option String := none
deriving DecidableEq, Repr

namespace HintPostProcessor

/-- The `ANSWER_PATTERNS` (in source order): `[xyzXYZ]\s*=\s*-?\d+`,
`等于\s*-?\d+`, `答案[是为：:]\s*-?\d+`, `结果[是为：:]\s*-?\d+`. -/
def ANSWER_PATTERNS : List LeakPat :=
  [ { lead := [fun c => c = 'x' || c = 'y' || c = 'z' ||
        c = 'X' || c = 'Y' || c = 'Z'], mid := [fun c => c = '='] }
  , { lead := [fun c => c = '等', fun c => c = '于'], mid := [] }
  , { lead := [fun c => c = '答', fun c => c = '案',
        fun c => c = '是' || c = '为' || c = '：' || c = ':'], mid := [] }
  , { lead := [fun c => c = '结', fun c => c = '果',
        fun c => c = '是' || c = '为' || c = '：' || c = ':'], mid := [] } ]

/-- The `NEGATIVE_WORDS` class constant. -/
def NEGATIVE_WORDS : List String :=
  ["错", "不对", "错误", "wrong", "incorrect", "mistake", "笨", "傻", "蠢"]

/-- The tail of `HintPostProcessor.process`: the negative-word loop and
the clean case. -/
def negativeOrClean (hint_content : String) : PostProcessResult :=
  if NEGATIVE_WORDS.any
      (fun w => pyContains (pyLower hint_content.data) w.data) then
    { content := hint_content, was_filtered := true
      filter_reason := some "negative_word" }
  else
    { content := hint_content, was_filtered := false }

/-- The `HintPostProcessor.process`.  The `STEP_REVEAL_PATTERNS` class
constant of the source is never consulted by `process` and is therefore
not modelled.  A `problem_answer` of `some ""` is falsy in Python, hence
the non-emptiness guard. -/
def process (hint_content : String) (problem_answer : Option String) :
    PostProcessResult :=
  if (pyStrip hint_content.data).isEmpty then
    { content := "让我们一起来思考这道题。", was_filtered := true
      filter_reason := some "empty_content" }
  else
    match ANSWER_PATTERNS.find? (fun p => leakSearch p hint_content.data) with
    | some p =>
        { content := String.mk (leakSub p hint_content.data)
          was_filtered := true, filter_reason := some "answer_leak" }
    | none =>
        match problem_answer with
        | some ans =>
            if !ans.isEmpty && pyContains hint_content.data ans.data then
              { content := String.mk (pyReplace hint_content.data
                  ans.data "[...]".data)
                was_filtered := true, filter_reason := some "direct_answer_leak" }
            else negativeOrClean hint_content
        | none => negativeOrClean hint_content

end HintPostProcessor


/-! ## Hint generator (`backend/services/hint_generator.py`) -/

/-- One interaction with the optional text-generation collaborator:
either a returned string or a raised exception.  A collaborator behavior
is a function `String → LLMOutcome` from the prompt it receives. -/
inductive LLMOutcome where
  | ok (s : String)
  | exc
deriving DecidableEq, Repr

/-- The `GeneratedHint` dataclass. -/
structure GeneratedHint where
  content : String
  layer : HintLayer
  sequence : Nat := 1
  is_downgrade : Bool := false
deriving DecidableEq, Repr

namespace HintGenerator

/-- The `LAYER_PROMPTS_EN`: dictionary from layer to template.  A template is
modelled as the function of the three strings Python's `str.format`
substitutes (`problem_type`, `problem_text`, `grade_level`); fields a
template does not mention are simply unused. -/
def LAYER_PROMPTS_EN : HintLayer → Option (String → String → String → String)
  | .CONCEPT => some (fun ptd text grade =>
      "You are a Socratic math tutor helping a " ++ grade ++
      " student with a " ++ ptd ++ " problem.\n" ++
      "Give a concept-level hint to help them recall relevant math concepts. " ++
      "Do NOT give the answer or specific steps.\n" ++
      "Use encouraging language appropriate for their grade level.\n" ++
      "Problem: " ++ text ++ "\n" ++
      "Keep your response under 80 words.")
  | .STRATEGY => some (fun _ text grade =>
      "You are a Socratic math tutor. The student understands the concept " ++
      "and needs strategy guidance.\n" ++
      "Guide them to think about the approach and method, but don\x27t give " ++
      "specific calculation steps or the answer.\n" ++
      "Use encouraging language for a " ++ grade ++ " student.\n" ++
      "Problem: " ++ text ++ "\n" ++
      "Keep your response under 80 words.")
  | .STEP => some (fun _ text grade =>
      "You are a Socratic math tutor. The student knows the strategy and " ++
      "needs step-by-step guidance.\n" ++
      "Guide them to execute the first specific step, but still don\x27t give " ++
      "the final answer.\n" ++
      "Use encouraging language for a " ++ grade ++ " student.\n" ++
      "Problem: " ++ text ++ "\n" ++
      "Keep your response under 80 words.")
  | _ => none

/-- The `LAYER_PROMPTS_ZH`. -/
def LAYER_PROMPTS_ZH : HintLayer → Option (String → String → String → String)
  | .CONCEPT => some (fun ptd text _ =>
      "你是一个苏格拉底式的数学老师。学生正在解决一道" ++ ptd ++ "的题目。\n" ++
      "请给出概念层提示，帮助学生回忆相关的数学概念，但绝对不要给出答案或具体步骤。\n" ++
      "使用鼓励性的语言，不要使用\x27错\x27、\x27不对\x27等负面词汇。\n" ++
      "题目: " ++ text ++ "\n" ++
      "请用中文回答，限制在100字以内。")
  | .STRATEGY => some (fun _ text _ =>
      "你是一个苏格拉底式的数学老师。学生已经理解了概念，现在需要策略提示。\n" ++
      "请引导学生思考解题的方向和方法，但不要给出具体的计算步骤或答案。\n" ++
      "使用鼓励性的语言。\n" ++
      "题目: " ++ text ++ "\n" ++
      "请用中文回答，限制在100字以内。")
  | .STEP => some (fun _ text _ =>
      "你是一个苏格拉底式的数学老师。学生已经知道解题策略，现在需要具体步骤的引导。\n" ++
      "请引导学生执行第一个具体步骤，但仍然不要直接给出最终答案。\n" ++
      "使用鼓励性的语言。\n" ++
      "题目: " ++ text ++ "\n" ++
      "请用中文回答，限制在100字以内。")
  | _ => none

/-- The `FALLBACK_HINTS_EN` as a partial lookup: `none` models a key that is
absent from the nested dictionaries. -/
def FALLBACK_HINTS_EN : HintLayer → ProblemType → Option String
  | .CONCEPT, .LINEAR_EQUATION_1VAR => some ("This is a linear equation with one variable. Do you remember the basic properties of equations? Think about what operations you can do to both sides while keeping the equation balanced.")
  | .CONCEPT, .QUADRATIC_EQUATION => some ("This is a quadratic equation. What methods do you know for solving quadratic equations? Think about factoring, completing the square, or the quadratic formula.")
  | .CONCEPT, .LINEAR_EQUATION_2VAR => some ("This is a system of linear equations. How might we eliminate one of the variables?")
  | .CONCEPT, .GEOMETRY_BASIC => some ("This is a geometry problem. Let\x27s start by reviewing the relevant formulas and properties.")
  | .CONCEPT, .ARITHMETIC => some ("This is an arithmetic problem. Let\x27s look carefully at the order of operations.")
  | .CONCEPT, .UNKNOWN => some ("Let\x27s analyze this problem together. First, can you tell me what the problem is asking?")
  | .STRATEGY, .LINEAR_EQUATION_1VAR => some ("Great! Now think about how to solve for x. What if we put all the x terms on one side and the numbers on the other?")
  | .STEP, .LINEAR_EQUATION_1VAR => some ("Now let\x27s do the first step. Look at the left side of the equation - what can we move to the right side?")
  | _, _ => none

/-- The `FALLBACK_HINTS_ZH`. -/
def FALLBACK_HINTS_ZH : HintLayer → ProblemType → Option String
  | .CONCEPT, .LINEAR_EQUATION_1VAR => some "这是一道一元一次方程。你还记得什么是等式的基本性质吗？想一想，我们可以对等式的两边做什么操作而保持等式成立？"
  | .CONCEPT, .QUADRATIC_EQUATION => some "这是一道一元二次方程。你知道有哪些方法可以解二次方程吗？比如因式分解、配方法或求根公式？"
  | .CONCEPT, .LINEAR_EQUATION_2VAR => some "这是一道二元一次方程组。想想看，我们怎样才能消去其中一个未知数呢？"
  | .CONCEPT, .GEOMETRY_BASIC => some "这是一道几何题。让我们先回顾一下相关的几何公式和定理。"
  | .CONCEPT, .ARITHMETIC => some "这是一道计算题。让我们仔细看看运算的顺序。"
  | .CONCEPT, .UNKNOWN => some "让我们一起分析这道题目。首先，你能告诉我这道题在问什么吗？"
  | .STRATEGY, .LINEAR_EQUATION_1VAR => some "很好！现在想想，为了求出x的值，我们应该怎样处理等式？把含x的项放在一边，常数放在另一边？"
  | .STEP, .LINEAR_EQUATION_1VAR => some "现在，让我们执行第一步。看看等式左边，有什么可以移到右边的吗？"
  | _, _ => none

/-- The `PROBLEM_TYPE_DISPLAY_EN` (all six keys are present, so the
`dict.get` default "math problem" of the source is unreachable). -/
def PROBLEM_TYPE_DISPLAY_EN : ProblemType → String
  | .LINEAR_EQUATION_1VAR => "linear equation"
  | .LINEAR_EQUATION_2VAR => "system of linear equations"
  | .QUADRATIC_EQUATION => "quadratic equation"
  | .GEOMETRY_BASIC => "geometry"
  | .ARITHMETIC => "arithmetic"
  | .UNKNOWN => "math problem"

/-- The `PROBLEM_TYPE_DISPLAY_ZH`. -/
def PROBLEM_TYPE_DISPLAY_ZH : ProblemType → String
  | .LINEAR_EQUATION_1VAR => "一元一次方程"
  | .LINEAR_EQUATION_2VAR => "二元一次方程组"
  | .QUADRATIC_EQUATION => "一元二次方程"
  | .GEOMETRY_BASIC => "基础几何"
  | .ARITHMETIC => "四则运算"
  | .UNKNOWN => "数学问题"

/-- The `HintGenerator._get_problem_type_display`. -/
def get_problem_type_display (problem_type : ProblemType) (locale : String) : String :=
  if pyStartsWith locale "en" then PROBLEM_TYPE_DISPLAY_EN problem_type
  else PROBLEM_TYPE_DISPLAY_ZH problem_type

/-- The `HintGenerator._get_grade_display` (`GRADE_DISPLAY` has keys 4–9;
other grades fall back to Python\x27s `f"grade {grade_level}"`). -/
def get_grade_display : Option Int → String
  | none => "middle school"
  | some 4 => "4th grade"
  | some 5 => "5th grade"
  | some 6 => "6th grade"
  | some 7 => "7th grade"
  | some 8 => "8th grade"
  | some 9 => "9th grade"
  | some g => "grade " ++ toString g

/-- The body of `HintGenerator._get_fallback` after the bank has been
selected: layer-and-type entry, then the Concept entry for the type, then
the Concept `Unknown` entry (which exists in both banks; the `getD ""`
default mirrors the fact that Python would raise `KeyError` were it
absent, which cannot happen). -/
def fallback_lookup (fallbacks : HintLayer → ProblemType → Option String)
    (problem_type : ProblemType) (layer : HintLayer) : String :=
  match fallbacks layer problem_type with
  | some s => s
  | none =>
    match fallbacks .CONCEPT problem_type with
    | some s => s
    | none => (fallbacks .CONCEPT .UNKNOWN).getD ""

/-- The `HintGenerator._get_fallback`. -/
def get_fallback (problem_type : ProblemType) (layer : HintLayer)
    (locale : String) : String :=
  fallback_lookup
    (if pyStartsWith locale "en" then FALLBACK_HINTS_EN else FALLBACK_HINTS_ZH)
    problem_type layer

/-- The `HintGenerator._generate_content`: consult the collaborator when one
is configured and the layer has a prompt template; any exception degrades
to the static fallback, as does the absence of either. -/
def generate_content (llm : Option (String → LLMOutcome)) (problem_text : String)
    (problem_type : ProblemType) (layer : HintLayer) (locale : String)
    (grade_level : Option Int) : String :=
  let prompts := if pyStartsWith locale "en" then LAYER_PROMPTS_EN else LAYER_PROMPTS_ZH
  match llm, prompts layer with
  | some f, some tmpl =>
      match f (tmpl (get_problem_type_display problem_type locale) problem_text
          (get_grade_display grade_level)) with
      | .ok s => s
      | .exc => get_fallback problem_type layer locale
  | _, _ => get_fallback problem_type layer locale

/-- The filtering step of `HintGenerator.generate`: run the candidate
through the safety filter (without a known answer, exactly as the source
calls it) and substitute the static fallback on the two leak reasons. -/
def hint_final_content (content : String) (problem_type : ProblemType)
    (layer : HintLayer) (locale : String) : String :=
  let processed := HintPostProcessor.process content none
  if processed.was_filtered ∧
      (processed.filter_reason = some "answer_leak" ∨
        processed.filter_reason = some "direct_answer_leak") then
    get_fallback problem_type layer locale
  else
    processed.content

/-- The `HintGenerator.generate`. -/
def generate (llm : Option (String → LLMOutcome)) (problem_text : String)
    (problem_type : ProblemType) (layer : HintLayer) (sequence : Nat)
    (is_downgrade : Bool) (locale : String) (grade_level : Option Int) :
    GeneratedHint :=
  { content := hint_final_content
      (generate_content llm problem_text problem_type layer locale grade_level)
      problem_type layer locale
    layer := layer, sequence := sequence, is_downgrade := is_downgrade }

end HintGenerator

/-- The candidate hint content matches some pattern of the answer-leak
pattern set (the disjunction the `process` answer-pattern loop tests). -/
def anyAnswerPattern (s : String) : Bool :=
  HintPostProcessor.ANSWER_PATTERNS.any (fun p => leakSearch p s.data)


/-! ## Solution generator (`backend/services/solution_generator.py`) -/

/-- The `GeneratedSolution` dataclass; a step dict `{description, result}` is
modelled as a pair. -/
structure GeneratedSolution where
  steps : List (String × String) := []
  final_answer : String := ""
  explanation : String := ""
deriving DecidableEq, Repr

namespace SolutionGenerator

/-- The `SOLUTION_PROMPT` with `{problem_text}` substituted. -/
def SOLUTION_PROMPT (problem_text : String) : String :=
  "请为以下数学题提供完整的解答。\n" ++
  "题目: " ++ problem_text ++ "\n\n" ++
  "请按以下格式回答：\n" ++
  "步骤1: [描述] -> [结果]\n" ++
  "步骤2: [描述] -> [结果]\n" ++
  "...\n" ++
  "最终答案: [答案]\n" ++
  "解释: [简短的总结]\n"

/-- The `FALLBACK_SOLUTIONS` (all six keys are present, so the `dict.get`
default of `_get_fallback` is unreachable). -/
def FALLBACK_SOLUTIONS : ProblemType → GeneratedSolution
  | .LINEAR_EQUATION_1VAR =>
      { steps := [("移项：将常数项移到等式右边", "3x = 14 - 5"),
                  ("计算右边", "3x = 9"),
                  ("两边同除以系数", "x = 9 ÷ 3"),
                  ("得出结果", "x = 3")]
        final_answer := "x = 3"
        explanation := "这是一道一元一次方程，通过移项和等式性质求解。" }
  | .QUADRATIC_EQUATION =>
      { steps := [("识别方程形式", "标准二次方程 ax² + bx + c = 0"),
                  ("尝试因式分解或使用求根公式", "分解为 (x-p)(x-q) = 0"),
                  ("求解每个因子", "x = p 或 x = q")]
        final_answer := "x = 2 或 x = 3"
        explanation := "二次方程可以通过因式分解、配方法或求根公式求解。" }
  | .LINEAR_EQUATION_2VAR =>
      { steps := [("选择消元法或代入法", "确定消去哪个变量"),
                  ("消去一个变量", "得到一元方程"),
                  ("求解得到的一元方程", "得到第一个变量的值"),
                  ("代入求另一个变量", "得到第二个变量的值")]
        final_answer := "x = a, y = b"
        explanation := "二元一次方程组通过消元或代入法求解。" }
  | .GEOMETRY_BASIC =>
      { steps := [("确定图形类型和已知条件", "识别几何图形"),
                  ("选择合适的公式", "面积/周长公式"),
                  ("代入数值计算", "计算结果")]
        final_answer := "面积 = 12"
        explanation := "几何题需要正确识别图形并应用相应公式。" }
  | .ARITHMETIC =>
      { steps := [("按运算顺序处理", "先乘除后加减"),
                  ("逐步计算", "中间结果"),
                  ("得出最终结果", "最终答案")]
        final_answer := "42"
        explanation := "算术运算需要遵循运算优先级。" }
  | .UNKNOWN =>
      { steps := [("分析题目要求", "理解问题"),
                  ("选择解题方法", "确定策略"),
                  ("执行计算", "得出答案")]
        final_answer := "请根据题目具体计算"
        explanation := "数学题需要仔细分析，选择合适的方法求解。" }

/-- The `SolutionGenerator._get_fallback`. -/
def get_fallback (problem_type : ProblemType) : GeneratedSolution :=
  FALLBACK_SOLUTIONS problem_type

/-- Python `line.split(sep, 1)`: at most one split, at the first
occurrence. -/
def pySplitOnce (sep line : String) : List String :=
  match pySplitOnceChars sep.data line.data with
  | some r => [String.mk r.fst, String.mk r.snd]
  | none => [line]

/-- The line loop of `SolutionGenerator._parse_llm_response`, threading
the accumulated steps, final answer and explanation. -/
def parse_lines : List String → List (String × String) → String → String →
    List (String × String) × String × String
  | [], steps, fa, ex => (steps, fa, ex)
  | line0 :: rest, steps, fa, ex =>
      let line := String.mk (pyStrip line0.data)
      if pyStartsWith line "步骤" && pyContains line.data "->".data then
        match pySplitOnce ":" line with
        | [_, after] =>
            match pySplit "->".data after.data with
            | [d, r] =>
                parse_lines rest
                  (steps ++ [(String.mk (pyStrip d), String.mk (pyStrip r))])
                  fa ex
            | _ => parse_lines rest steps fa ex
        | _ => parse_lines rest steps fa ex
      else if pyStartsWith line "最终答案" then
        parse_lines rest steps
          (String.mk (pyStrip (((pySplitOnce ":" line).getLast?).getD line).data)) ex
      else if pyStartsWith line "解释" then
        parse_lines rest steps fa
          (String.mk (pyStrip (((pySplitOnce ":" line).getLast?).getD line).data))
      else parse_lines rest steps fa ex

/-- The raw result of the parsing loop on a collaborator response:
`(steps, finalAnswer, explanation)` before the zero-steps / empty-answer
check. -/
def parsed_raw (response : String) : List (String × String) × String × String :=
  parse_lines ((pySplit "\n".data (pyStrip response.data)).map String.mk) [] "" ""

/-- The `SolutionGenerator._parse_llm_response`. -/
def parse_llm_response (response : String) : GeneratedSolution :=
  let r := parsed_raw response
  if r.fst = [] ∨ r.snd.fst = "" then get_fallback .UNKNOWN
  else { steps := r.fst, final_answer := r.snd.fst, explanation := r.snd.snd }

/-- The `SolutionGenerator.generate`. -/
def generate (llm : Option (String → LLMOutcome)) (problem_text : String)
    (problem_type : ProblemType) : GeneratedSolution :=
  match llm with
  | some f =>
      match f (SOLUTION_PROMPT problem_text) with
      | .ok response => parse_llm_response response
      | .exc => get_fallback problem_type
  | none => get_fallback problem_type

end SolutionGenerator

/-! ## Problem classifier (`backend/services/problem_classifier.py`) -/

namespace ProblemClassifier

/-- Iteration order of `for problem_type in ProblemType` (definition
order of the enum members). -/
def allProblemTypes : List ProblemType :=
  [.LINEAR_EQUATION_1VAR, .LINEAR_EQUATION_2VAR, .QUADRATIC_EQUATION,
   .GEOMETRY_BASIC, .ARITHMETIC, .UNKNOWN]

/-- The `ProblemClassifier._parse_llm_result`. -/
def parse_llm_result (result : String) : ProblemType :=
  let result_lower := String.mk (pyStrip (pyLower result.data))
  (allProblemTypes.find? (fun pt => pt.value = result_lower)).getD .UNKNOWN

/-- The `ProblemClassifier._classify_by_rules`. -/
def classify_by_rules (problem_text : String) : ProblemType :=
  let text := pyLower problem_text.data
  if (pyContains text ",".data || pyContains text "，".data) &&
      pyContains text "x".data && pyContains text "y".data then
    .LINEAR_EQUATION_2VAR
  else if pyContains text "x²".data || pyContains text "x^2".data ||
      pyContains text "x2".data then
    .QUADRATIC_EQUATION
  else if pyContains text "x".data && pyContains text "=".data then
    .LINEAR_EQUATION_1VAR
  else if (pyContains text "解方程".data || pyContains text "求解".data) &&
      pyContains text "x".data then
    .LINEAR_EQUATION_1VAR
  else
    .UNKNOWN

/-- The `ProblemClassifier.classify`: consult the classification collaborator
when configured, falling back to the rules on exception or an
`UNKNOWN`-parsing result. -/
def classify (llm : Option (String → LLMOutcome)) (problem_text : String) :
    ProblemType :=
  match llm with
  | some f =>
      match f problem_text with
      | .ok r =>
          let pt := parse_llm_result r
          if pt ≠ .UNKNOWN then pt else classify_by_rules problem_text
      | .exc => classify_by_rules problem_text
  | none => classify_by_rules problem_text

end ProblemClassifier

/-- The rule-based classifier exactly as claim C9 words it: first match
wins among (1) list separator plus both `x` and `y`; (2) a squared-`x`
token; (3) `x` with `=`; (4) an equation-solving verb phrase with `x`;
otherwise `Unknown`.  Matching is over the lowercased text, as in the
source. -/
def classifyByRulesSpecC9 (problem_text : String) : ProblemType :=
  let text := pyLower problem_text.data
  let hasListSep := pyContains text ",".data || pyContains text "，".data
  let hasX := pyContains text "x".data
  let hasY := pyContains text "y".data
  let hasSquare := pyContains text "x²".data || pyContains text "x^2".data ||
    pyContains text "x2".data
  let hasEq := pyContains text "=".data
  let hasSolveVerb := pyContains text "解方程".data || pyContains text "求解".data
  if hasListSep && hasX && hasY then .LINEAR_EQUATION_2VAR
  else if hasSquare then .QUADRATIC_EQUATION
  else if hasX && hasEq then .LINEAR_EQUATION_1VAR
  else if hasSolveVerb && hasX then .LINEAR_EQUATION_1VAR
  else .UNKNOWN

/-! ## Theorems -/

/-- C2: `SessionManager.determine_transition` coincides with the spec's
transition function at every layer, understanding level and confusion
count: `Understood` advances one ordered layer at a time (Concept →
Strategy → Step → Completed) with `reset_confusion`, leaves non-ordered
layers in place with `reset_confusion`, and `Confused` /
`ExplicitlyConfused` stay put without reset, downgrading exactly when
`confusion_count + 1 ≥ 3`. -/
theorem determine_transition_eq_specC2 :
    ∀ (l : HintLayer) (u : UnderstandingLevel) (c : Nat),
      SessionManager.determine_transition l u c = determineTransitionSpecC2 l u c := by
  intro l u c
  by_cases h : 3 ≤ c + 1 <;>
    cases u <;> cases l <;>
      simp [SessionManager.determine_transition, SessionManager.handle_understood,
        determineTransitionSpecC2, LAYER_ORDER, CONFUSION_THRESHOLD, h]

/-- C4: `UnderstandingEvaluator.evaluate` applies its rules
first-match-wins on the trimmed input exactly as the spec describes:
explicit-confusion phrases dominate, then `charCount < 10` forces
`Confused`, and otherwise the verdict is `Understood` precisely when the
case-insensitive substring match against the union of the type-specific
and `Unknown` keyword lists is non-empty, with those matches reported. -/
theorem evaluate_eq_specC4 :
    ∀ (s : String) (pt : ProblemType) (l : HintLayer),
      UnderstandingEvaluator.evaluate s pt l = evaluateSpecC4 s pt l := by
  intro s pt l
  simp only [UnderstandingEvaluator.evaluate, UnderstandingEvaluator.evaluateS,
    UnderstandingEvaluator.find_matching_keywords,
    UnderstandingEvaluator.MIN_RESPONSE_LENGTH, evaluateSpecC4]
  repeat' split
  all_goals simp_all


/-- Deduplication does not change the underlying set. -/
theorem dedup_toFinset (l : List String) : l.dedup.toFinset = l.toFinset := by
  ext a
  simp

/-- A fresh keyword table satisfies the invariant. -/
theorem kwInv_init : KwInv UnderstandingEvaluator.KEYWORDS_BY_TYPE := by
  intro pt
  rfl

/-- The table returned by one `evaluateS` call: either untouched (early
verdicts) or extended in place at the call's problem type. -/
theorem evaluateS_snd (t : KwTable) (s : String) (pt : ProblemType) (l : HintLayer) :
    (UnderstandingEvaluator.evaluateS t s pt l).snd = t ∨
    (UnderstandingEvaluator.evaluateS t s pt l).snd =
      fun q => if q = pt then t pt ++ t .UNKNOWN else t q := by
  unfold UnderstandingEvaluator.evaluateS
  by_cases h1 :
      UnderstandingEvaluator.contains_explicit_confusion (pyStrip s.data) = true
  · left
    simp [h1]
  · by_cases h2 :
        (pyStrip s.data).length < UnderstandingEvaluator.MIN_RESPONSE_LENGTH
    · left
      simp [h1, h2]
    · right
      simp only [h1, h2, UnderstandingEvaluator.find_matching_keywords,
        if_false, ite_false, Bool.false_eq_true]
      split <;> rfl

/-- One `evaluate` call preserves the keyword-set invariant. -/
theorem kwInv_step (t : KwTable) (hInv : KwInv t) (s : String)
    (pt : ProblemType) (l : HintLayer) :
    KwInv (UnderstandingEvaluator.evaluateS t s pt l).snd := by
  have hU : (t .UNKNOWN).toFinset =
      (UnderstandingEvaluator.KEYWORDS_BY_TYPE ProblemType.UNKNOWN).toFinset := by
    have h := hInv .UNKNOWN
    simpa [List.toFinset_append] using h
  rcases evaluateS_snd t s pt l with h | h <;> rw [h]
  · exact hInv
  · intro q
    by_cases hq : q = pt
    · subst hq
      by_cases hu : ProblemType.UNKNOWN = q
      · subst hu
        simp only [if_pos rfl, if_true, ite_true, List.toFinset_append,
          Finset.union_self]
        exact hU
      · simp only [if_pos rfl, if_neg hu, if_true, ite_true, List.toFinset_append,
          Finset.union_assoc,
          Finset.union_self]
        simpa [List.toFinset_append] using hInv q
    · by_cases hu : ProblemType.UNKNOWN = pt
      · subst hu
        simp only [if_neg hq, if_pos rfl, if_true, ite_true, List.toFinset_append,
          Finset.union_self]
        simpa [List.toFinset_append] using hInv q
      · simp only [if_neg hq, if_neg hu]
        exact hInv q

/-- In the keyword-matching branch (no explicit confusion, long enough
response), the result of `evaluateS` is determined by the deduplicated
filtered keyword list. -/
theorem evaluateS_fst_branch3 (t : KwTable) (s : String) (pt : ProblemType)
    (l : HintLayer)
    (h1 : ¬ UnderstandingEvaluator.contains_explicit_confusion (pyStrip s.data) = true)
    (h2 : ¬ (pyStrip s.data).length < UnderstandingEvaluator.MIN_RESPONSE_LENGTH) :
    (UnderstandingEvaluator.evaluateS t s pt l).fst =
      if ((t pt ++ t .UNKNOWN).filter
          (fun kw => pyContains (pyLower (pyStrip s.data)) (pyLower kw.data))).dedup ≠ [] then
        { understanding_level := .UNDERSTOOD, char_count := (pyStrip s.data).length
          keywords_matched := ((t pt ++ t .UNKNOWN).filter
            (fun kw => pyContains (pyLower (pyStrip s.data)) (pyLower kw.data))).dedup }
      else
        { understanding_level := .CONFUSED, char_count := (pyStrip s.data).length
          keywords_matched := [] } := by
  simp only [UnderstandingEvaluator.evaluateS,
    UnderstandingEvaluator.find_matching_keywords]
  rw [if_neg h1, if_neg h2]
  split
  · rfl
  · rfl

/-- Under the keyword-set invariant, the observable part of an `evaluate`
call (level, character count, matched-keyword set) is the same as on a
fresh table. -/
theorem evaluateS_obs_of_inv (t : KwTable) (hInv : KwInv t) (s : String)
    (pt : ProblemType) (l : HintLayer) :
    (UnderstandingEvaluator.evaluateS t s pt l).fst.understanding_level =
      (UnderstandingEvaluator.evaluateS
        UnderstandingEvaluator.KEYWORDS_BY_TYPE s pt l).fst.understanding_level ∧
    (UnderstandingEvaluator.evaluateS t s pt l).fst.char_count =
      (UnderstandingEvaluator.evaluateS
        UnderstandingEvaluator.KEYWORDS_BY_TYPE s pt l).fst.char_count ∧
    (UnderstandingEvaluator.evaluateS t s pt l).fst.keywords_matched.toFinset =
      (UnderstandingEvaluator.evaluateS
        UnderstandingEvaluator.KEYWORDS_BY_TYPE s pt l).fst.keywords_matched.toFinset := by
  by_cases h1 :
      UnderstandingEvaluator.contains_explicit_confusion (pyStrip s.data) = true
  · unfold UnderstandingEvaluator.evaluateS
    simp [h1]
  · by_cases h2 :
        (pyStrip s.data).length < UnderstandingEvaluator.MIN_RESPONSE_LENGTH
    · unfold UnderstandingEvaluator.evaluateS
      simp [h1, h2]
    · have hset : (((t pt ++ t .UNKNOWN).filter
          (fun kw => pyContains (pyLower (pyStrip s.data)) (pyLower kw.data))).dedup).toFinset =
          (((UnderstandingEvaluator.KEYWORDS_BY_TYPE pt ++
              UnderstandingEvaluator.KEYWORDS_BY_TYPE .UNKNOWN).filter
            (fun kw => pyContains (pyLower (pyStrip s.data)) (pyLower kw.data))).dedup).toFinset := by
        rw [dedup_toFinset, dedup_toFinset, List.toFinset_filter, List.toFinset_filter,
          hInv pt]
      have hnil : ((((t pt ++ t .UNKNOWN).filter
          (fun kw => pyContains (pyLower (pyStrip s.data)) (pyLower kw.data))).dedup) = []) ↔
          ((((UnderstandingEvaluator.KEYWORDS_BY_TYPE pt ++
              UnderstandingEvaluator.KEYWORDS_BY_TYPE .UNKNOWN).filter
            (fun kw => pyContains (pyLower (pyStrip s.data)) (pyLower kw.data))).dedup) = []) := by
        rw [← List.toFinset_eq_empty_iff, ← List.toFinset_eq_empty_iff, hset]
      rw [evaluateS_fst_branch3 t s pt l h1 h2,
        evaluateS_fst_branch3 UnderstandingEvaluator.KEYWORDS_BY_TYPE s pt l h1 h2]
      by_cases h3 : ((((UnderstandingEvaluator.KEYWORDS_BY_TYPE pt ++
          UnderstandingEvaluator.KEYWORDS_BY_TYPE .UNKNOWN).filter
          (fun kw => pyContains (pyLower (pyStrip s.data)) (pyLower kw.data))).dedup) = [])
      · have h4 := hnil.mpr h3
        rw [if_neg (not_not_intro h4), if_neg (not_not_intro h3)]
        exact ⟨rfl, rfl, rfl⟩
      · have h4 : ¬ ((((t pt ++ t .UNKNOWN).filter
            (fun kw => pyContains (pyLower (pyStrip s.data)) (pyLower kw.data))).dedup) = []) :=
          fun hcon => h3 (hnil.mp hcon)
        rw [if_pos h4, if_pos h3]
        exact ⟨rfl, rfl, hset⟩

/-- The keyword-set invariant holds after any sequence of calls. -/
theorem kwInv_runCalls :
    ∀ (calls : List (String × ProblemType × HintLayer)) (t : KwTable),
      KwInv t → KwInv (UnderstandingEvaluator.runCalls t calls) := by
  intro calls
  induction calls with
  | nil => intro t h; exact h
  | cons c rest ih =>
      rcases c with ⟨s, pt, l⟩
      intro t h
      exact ih _ (kwInv_step t h s pt l)

/-- C10: `UnderstandingEvaluator.evaluate` is deterministic at its
interface.  Whatever sequence of earlier `evaluate` calls has mutated the
shared keyword dictionary, a call with the same `(responseText,
problemType, layer)` yields the same understanding level, the same
`charCount`, and the same set of matched keywords as on a fresh
evaluator. -/
theorem evaluate_interface_deterministic :
    ∀ (calls : List (String × ProblemType × HintLayer)) (s : String)
      (pt : ProblemType) (l : HintLayer),
      (UnderstandingEvaluator.evaluateS
          (UnderstandingEvaluator.runCalls
            UnderstandingEvaluator.KEYWORDS_BY_TYPE calls) s pt l).fst.understanding_level =
        (UnderstandingEvaluator.evaluate s pt l).understanding_level ∧
      (UnderstandingEvaluator.evaluateS
          (UnderstandingEvaluator.runCalls
            UnderstandingEvaluator.KEYWORDS_BY_TYPE calls) s pt l).fst.char_count =
        (UnderstandingEvaluator.evaluate s pt l).char_count ∧
      (UnderstandingEvaluator.evaluateS
          (UnderstandingEvaluator.runCalls
            UnderstandingEvaluator.KEYWORDS_BY_TYPE calls) s pt l).fst.keywords_matched.toFinset =
        (UnderstandingEvaluator.evaluate s pt l).keywords_matched.toFinset := by
  intro calls s pt l
  simpa [UnderstandingEvaluator.evaluate] using
    evaluateS_obs_of_inv _ (kwInv_runCalls calls _ kwInv_init) s pt l

/-- C5 fails on the code: the spec's scenario input "I will isolate the
variable by moving terms" contains no keyword of the
`LinearEq1Var`/`Unknown` lists (those lists are Chinese apart from "x",
and the text contains no "x"), so the verdict is `Confused` with an empty
keyword set, not `Understood`. -/
theorem evaluate_isolate_scenario_counterexample :
    (UnderstandingEvaluator.evaluate "I will isolate the variable by moving terms"
        .LINEAR_EQUATION_1VAR .CONCEPT).understanding_level =
      UnderstandingLevel.CONFUSED ∧
    (UnderstandingEvaluator.evaluate "I will isolate the variable by moving terms"
        .LINEAR_EQUATION_1VAR .CONCEPT).keywords_matched = [] := by
  decide

/-- C5 (amended): on a response that does contain a keyword of the
`LinearEq1Var` list — here the keyword "x" — the scenario behaves as the
spec intends: `evaluate("I will isolate the variable x by moving terms",
LinearEq1Var, Concept)` returns `Understood` with the non-empty matched
keyword set containing exactly "x". -/
theorem evaluate_isolate_with_x_understood :
    UnderstandingEvaluator.evaluate "I will isolate the variable x by moving terms"
        .LINEAR_EQUATION_1VAR .CONCEPT =
      { understanding_level := UnderstandingLevel.UNDERSTOOD, char_count := 45
        keywords_matched := ["x"] } := by
  decide

/-- C9: with no classification collaborator, `ProblemClassifier.classify`
is exactly the ordered first-match-wins rule set of the spec, and in
particular classifies "3x + 5 = 14" as `LinearEq1Var`. -/
theorem classify_rules_eq_specC9 :
    (∀ t : String, ProblemClassifier.classify none t = classifyByRulesSpecC9 t) ∧
    ProblemClassifier.classify none "3x + 5 = 14" = ProblemType.LINEAR_EQUATION_1VAR := by
  constructor
  · intro t
    rfl
  · decide

/-- C7 fails on the code: when the collaborator's response parses to zero
steps (here the response "hello"), `generate` returns the `Unknown`
fallback even though the `problemType` argument (`LinearEq1Var`) has its
own fallback entry. -/
theorem solution_parse_failure_counterexample :
    SolutionGenerator.generate (some (fun _ => LLMOutcome.ok "hello")) "3x + 5 = 14"
        .LINEAR_EQUATION_1VAR = SolutionGenerator.FALLBACK_SOLUTIONS .UNKNOWN ∧
    SolutionGenerator.FALLBACK_SOLUTIONS .UNKNOWN ≠
      SolutionGenerator.FALLBACK_SOLUTIONS .LINEAR_EQUATION_1VAR := by
  decide

/-- C7 (amended): if the line-by-line parsing of the collaborator
response yields zero steps or an empty final answer, `generate` returns
the static fallback keyed by `Unknown` — regardless of the `problemType`
argument.  (The `problemType`-keyed fallback is used only when the
collaborator is absent or raises.) -/
theorem solution_parse_failure_uses_unknown_fallback :
    ∀ (f : String → LLMOutcome) (text : String) (pt : ProblemType) (resp : String),
      (∀ q, f q = LLMOutcome.ok resp) →
      ((SolutionGenerator.parsed_raw resp).fst = [] ∨
        (SolutionGenerator.parsed_raw resp).snd.fst = "") →
      SolutionGenerator.generate (some f) text pt =
        SolutionGenerator.FALLBACK_SOLUTIONS .UNKNOWN := by
  intro f text pt resp hf hp
  simp only [SolutionGenerator.generate, hf]
  simp only [SolutionGenerator.parse_llm_response]
  rw [if_pos hp]
  rfl

/-- Witness for the amended C7 theorem at the response "nope". -/
theorem solution_parse_failure_uses_unknown_fallback_witness :
    SolutionGenerator.generate (some (fun _ => LLMOutcome.ok "nope")) "t"
        .ARITHMETIC = SolutionGenerator.FALLBACK_SOLUTIONS .UNKNOWN :=
  solution_parse_failure_uses_unknown_fallback (fun _ => LLMOutcome.ok "nope") "t"
    .ARITHMETIC "nope" (fun _ => rfl) (by decide)

/-- C3: with no collaborator, `HintGenerator.generate` returns non-empty
content for every problem type and layer in both locales, and
`SolutionGenerator.generate` returns a non-empty step list and non-empty
final answer for every problem type.  (Both embedded functions are total
by construction, matching the "never raises" half of the claim.) -/
theorem fallback_totality :
    ∀ (text : String) (pt : ProblemType) (layer : HintLayer),
      (HintGenerator.generate none text pt layer 1 false "en-US" none).content ≠ "" ∧
      (HintGenerator.generate none text pt layer 1 false "zh-CN" none).content ≠ "" ∧
      (SolutionGenerator.generate none text pt).steps ≠ [] ∧
      (SolutionGenerator.generate none text pt).final_answer ≠ "" := by
  intro text pt layer
  have e1 : (HintGenerator.generate none text pt layer 1 false "en-US" none).content =
      (HintGenerator.generate none "" pt layer 1 false "en-US" none).content := rfl
  have e2 : (HintGenerator.generate none text pt layer 1 false "zh-CN" none).content =
      (HintGenerator.generate none "" pt layer 1 false "zh-CN" none).content := rfl
  have e3 : SolutionGenerator.generate none text pt =
      SolutionGenerator.generate none "" pt := rfl
  rw [e1, e2, e3]
  clear e1 e2 e3
  revert pt layer
  decide

/-- Case analysis of the safety filter when no known answer is supplied
(exactly how `HintGenerator.generate` calls it): the result is the
empty-content replacement, an answer-leak redaction for some pattern of
the set, or the input itself (flagged `negative_word` or clean), in which
case no answer pattern matches the input. -/
theorem process_none_cases (c : String) :
    (HintPostProcessor.process c none =
        { content := "让我们一起来思考这道题。", was_filtered := true
          filter_reason := some "empty_content" } ∧
      (pyStrip c.data).isEmpty = true) ∨
    (∃ p, p ∈ HintPostProcessor.ANSWER_PATTERNS ∧
      HintPostProcessor.process c none =
        { content := String.mk (leakSub p c.data), was_filtered := true
          filter_reason := some "answer_leak" }) ∨
    ((HintPostProcessor.process c none).content = c ∧
      ((HintPostProcessor.process c none).filter_reason = some "negative_word" ∧
          (HintPostProcessor.process c none).was_filtered = true ∨
        (HintPostProcessor.process c none).filter_reason = none ∧
          (HintPostProcessor.process c none).was_filtered = false) ∧
      ∀ p ∈ HintPostProcessor.ANSWER_PATTERNS, ¬ leakSearch p c.data = true) := by
  unfold HintPostProcessor.process
  by_cases h1 : (pyStrip c.data).isEmpty = true
  · left
    rw [if_pos h1]
    exact ⟨rfl, h1⟩
  · rw [if_neg h1]
    cases hfind : HintPostProcessor.ANSWER_PATTERNS.find?
        (fun p => leakSearch p c.data) with
    | some p =>
        right; left
        exact ⟨p, List.mem_of_find?_eq_some hfind, rfl⟩
    | none =>
        right; right
        have hall := List.find?_eq_none.mp hfind
        by_cases h2 : HintPostProcessor.NEGATIVE_WORDS.any
            (fun w => pyContains (pyLower c.data) w.data) = true
        · refine ⟨?_, Or.inl ⟨?_, ?_⟩, hall⟩ <;>
            simp [HintPostProcessor.negativeOrClean, h2]
        · refine ⟨?_, Or.inr ⟨?_, ?_⟩, hall⟩ <;>
            simp [HintPostProcessor.negativeOrClean, h2]

/-- No string of the static hint-fallback bank matches any answer-leak
pattern (either locale). -/
theorem anyAnswerPattern_fallback (locale : String) (pt : ProblemType)
    (layer : HintLayer) :
    anyAnswerPattern (HintGenerator.get_fallback pt layer locale) = false := by
  unfold HintGenerator.get_fallback
  by_cases h : pyStartsWith locale "en" = true
  · rw [if_pos h]
    revert pt layer
    decide
  · rw [if_neg h]
    revert pt layer
    decide

/-- The empty-content replacement string matches no answer-leak pattern. -/
theorem anyAnswerPattern_encouragement :
    anyAnswerPattern "让我们一起来思考这道题。" = false := by
  decide

/-- C1 (amended): for every input and every behavior of the optional
text-generation collaborator — arbitrary returned strings or raised
exceptions — the content returned by `HintGenerator.generate` matches no
pattern of the answer-leak pattern set.  (The verbatim-known-answer half
of the original claim is dropped: `generate` never receives the known
answer, see the counterexample.) -/
theorem hint_content_never_matches_answer_patterns :
    ∀ (llm : Option (String → LLMOutcome)) (text : String) (pt : ProblemType)
      (layer : HintLayer) (seq : Nat) (dg : Bool) (locale : String)
      (grade : Option Int),
      anyAnswerPattern
        (HintGenerator.generate llm text pt layer seq dg locale grade).content
        = false := by
  intro llm text pt layer seq dg locale grade
  show anyAnswerPattern (HintGenerator.hint_final_content
    (HintGenerator.generate_content llm text pt layer locale grade)
    pt layer locale) = false
  generalize HintGenerator.generate_content llm text pt layer locale grade = c
  unfold HintGenerator.hint_final_content
  rcases process_none_cases c with ⟨hp, _⟩ | ⟨p, hmem, hp⟩ | ⟨hcontent, hreason, hnone⟩
  · rw [hp, if_neg (by decide)]
    exact anyAnswerPattern_encouragement
  · rw [hp, if_pos (by exact ⟨rfl, Or.inl rfl⟩)]
    exact anyAnswerPattern_fallback locale pt layer
  · rw [if_neg]
    · rw [hcontent]
      simp only [anyAnswerPattern, List.any_eq_false]
      intro p hp
      simpa using hnone p hp
    · intro hcond
      rcases hreason with ⟨hr, _⟩ | ⟨hr, _⟩ <;> rcases hcond.2 with h' | h' <;>
        rw [hr] at h' <;> exact absurd h' (by decide)

/-- C1 fails as stated: `generate` never passes the problem's known
answer to the safety filter, so the collaborator can leak it verbatim.
For the problem "2+2", whose correct answer string is "4", a collaborator
that returns "The result you get is 4" has its output returned unchanged
— the content contains the answer "4" verbatim (while matching none of
the regex patterns, so the pattern check does not save it). -/
theorem hint_content_contains_answer_counterexample :
    (HintGenerator.generate (some (fun _ => LLMOutcome.ok "The result you get is 4"))
        "2+2" .UNKNOWN .CONCEPT 1 false "en-US" none).content =
      "The result you get is 4" ∧
    pyContains "The result you get is 4".data "4".data = true := by
  decide

/-- C6 fails as stated: a collaborator returning whitespace-only content
does not lead to the static fallback — the safety filter's fixed
encouragement string is returned instead of the `LinearEq1Var`
Concept-layer fallback. -/
theorem whitespace_output_not_fallback_counterexample :
    (HintGenerator.generate (some (fun _ => LLMOutcome.ok "   ")) "3x + 5 = 14"
        .LINEAR_EQUATION_1VAR .CONCEPT 1 false "en-US" none).content =
      "让我们一起来思考这道题。" ∧
    "让我们一起来思考这道题。" ≠
      HintGenerator.get_fallback .LINEAR_EQUATION_1VAR .CONCEPT "en-US" := by
  decide

set_option maxRecDepth 8192 in
/-- Feeding the static fallback through the filtering step returns it
unchanged, for every type, layer and locale. -/
theorem hint_final_content_fallback (locale : String) (pt : ProblemType)
    (layer : HintLayer) :
    HintGenerator.hint_final_content (HintGenerator.get_fallback pt layer locale)
      pt layer locale = HintGenerator.get_fallback pt layer locale := by
  by_cases h : pyStartsWith locale "en" = true
  · simp only [HintGenerator.hint_final_content, HintGenerator.get_fallback, h,
      if_true, ite_true]
    revert pt layer
    decide
  · simp only [HintGenerator.hint_final_content, HintGenerator.get_fallback,
      h, if_false, ite_false, Bool.false_eq_true]
    revert pt layer
    decide

/-- C6 (amended): when the collaborator is absent or raises, `generate`
returns the static fallback selected by the locale/layer/type lookup
chain; but when the collaborator returns an empty or whitespace-only
string (and the layer has a prompt template, so the collaborator is
actually consulted), `generate` returns the safety filter's fixed
encouragement string instead of the static fallback bank entry. -/
theorem hint_fallback_on_absent_or_failing_collaborator :
    ∀ (f : String → LLMOutcome) (text : String) (pt : ProblemType)
      (layer : HintLayer) (seq : Nat) (dg : Bool) (locale : String)
      (grade : Option Int) (out : String),
      (HintGenerator.generate none text pt layer seq dg locale grade).content =
        HintGenerator.get_fallback pt layer locale ∧
      ((∀ q, f q = LLMOutcome.exc) →
        (HintGenerator.generate (some f) text pt layer seq dg locale grade).content =
          HintGenerator.get_fallback pt layer locale) ∧
      ((∀ q, f q = LLMOutcome.ok out) → (pyStrip out.data).isEmpty = true →
        ((if pyStartsWith locale "en" then HintGenerator.LAYER_PROMPTS_EN
          else HintGenerator.LAYER_PROMPTS_ZH) layer).isSome = true →
        (HintGenerator.generate (some f) text pt layer seq dg locale grade).content =
          "让我们一起来思考这道题。") := by
  intro f text pt layer seq dg locale grade out
  refine ⟨?_, ?_, ?_⟩
  · show HintGenerator.hint_final_content
      (HintGenerator.generate_content none text pt layer locale grade)
      pt layer locale = _
    have e : HintGenerator.generate_content none text pt layer locale grade =
        HintGenerator.get_fallback pt layer locale := rfl
    rw [e]
    exact hint_final_content_fallback locale pt layer
  · intro hf
    show HintGenerator.hint_final_content
      (HintGenerator.generate_content (some f) text pt layer locale grade)
      pt layer locale = _
    have e : HintGenerator.generate_content (some f) text pt layer locale grade =
        HintGenerator.get_fallback pt layer locale := by
      simp only [HintGenerator.generate_content]
      cases hp2 : (if pyStartsWith locale "en" = true then HintGenerator.LAYER_PROMPTS_EN
          else HintGenerator.LAYER_PROMPTS_ZH) layer with
      | none => rfl
      | some tmpl => simp only [hf]
    rw [e]
    exact hint_final_content_fallback locale pt layer
  · intro hf hstrip hsome
    show HintGenerator.hint_final_content
      (HintGenerator.generate_content (some f) text pt layer locale grade)
      pt layer locale = _
    have e : HintGenerator.generate_content (some f) text pt layer locale grade = out := by
      simp only [HintGenerator.generate_content]
      cases hp2 : (if pyStartsWith locale "en" = true then HintGenerator.LAYER_PROMPTS_EN
          else HintGenerator.LAYER_PROMPTS_ZH) layer with
      | none => rw [hp2] at hsome; exact absurd hsome (by decide)
      | some tmpl => simp only [hf]
    rw [e]
    have hproc : HintPostProcessor.process out none =
        { content := "让我们一起来思考这道题。", was_filtered := true
          filter_reason := some "empty_content" } := by
      unfold HintPostProcessor.process
      rw [if_pos hstrip]
    simp only [HintGenerator.hint_final_content]
    rw [hproc, if_neg (by decide)]

/-- Witness for the amended C6 theorem: collaborator returning a single
space at the Concept layer in the English locale. -/
theorem hint_fallback_on_absent_or_failing_collaborator_witness :
    (HintGenerator.generate (some (fun _ => LLMOutcome.ok " ")) "p" .UNKNOWN
        .CONCEPT 1 false "en-US" none).content = "让我们一起来思考这道题。" :=
  (hint_fallback_on_absent_or_failing_collaborator (fun _ => LLMOutcome.ok " ") "p"
    .UNKNOWN .CONCEPT 1 false "en-US" none " ").2.2 (fun _ => rfl) (by decide)
    (by decide)

/-- Filter-reason case analysis of the filtering step: `negative_word`
leaves the candidate untouched (flag only) and the two leak reasons force
the static fallback. -/
theorem hint_final_content_reason_cases (c : String) (pt : ProblemType)
    (layer : HintLayer) (locale : String) :
    ((HintPostProcessor.process c none).filter_reason = some "negative_word" →
      (HintPostProcessor.process c none).was_filtered = true ∧
      (HintPostProcessor.process c none).content = c ∧
      HintGenerator.hint_final_content c pt layer locale = c) ∧
    ((HintPostProcessor.process c none).filter_reason = some "answer_leak" ∨
      (HintPostProcessor.process c none).filter_reason = some "direct_answer_leak" →
      HintGenerator.hint_final_content c pt layer locale =
        HintGenerator.get_fallback pt layer locale) := by
  simp only [HintGenerator.hint_final_content]
  rcases process_none_cases c with ⟨hp, _⟩ | ⟨p, hmem, hp⟩ | ⟨hcontent, hreason, _⟩
  · rw [hp]
    constructor
    · intro hr
      exact absurd hr (by decide)
    · intro hr
      rcases hr with hr | hr <;> exact absurd hr (by decide)
  · rw [hp]
    constructor
    · intro hr
      simp at hr
    · intro _
      rw [if_pos ⟨rfl, Or.inl rfl⟩]
  · rcases hreason with ⟨hr, hw⟩ | ⟨hr, hw⟩
    · have hneg : ¬ ((HintPostProcessor.process c none).was_filtered = true ∧
          ((HintPostProcessor.process c none).filter_reason = some "answer_leak" ∨
            (HintPostProcessor.process c none).filter_reason = some "direct_answer_leak")) := by
        intro hcond
        rcases hcond.2 with h' | h' <;> rw [hr] at h' <;> exact absurd h' (by decide)
      constructor
      · intro _
        exact ⟨hw, hcontent, by rw [if_neg hneg]; exact hcontent⟩
      · intro hor
        rcases hor with h' | h' <;> rw [hr] at h' <;> exact absurd h' (by decide)
    · constructor
      · intro h'
        rw [hr] at h'
        exact absurd h' (by decide)
      · intro hor
        rcases hor with h' | h' <;> rw [hr] at h' <;> exact absurd h' (by decide)

/-- C8: only `answer_leak` and `direct_answer_leak` verdicts make
`HintGenerator.generate` discard the candidate for the static fallback;
a `negative_word` verdict is informational — the filter flags but does
not modify the content, and `generate` returns that unmodified content. -/
theorem negative_word_informational :
    ∀ (llm : Option (String → LLMOutcome)) (text : String) (pt : ProblemType)
      (layer : HintLayer) (seq : Nat) (dg : Bool) (locale : String)
      (grade : Option Int),
      ((HintPostProcessor.process
          (HintGenerator.generate_content llm text pt layer locale grade)
          none).filter_reason = some "negative_word" →
        (HintPostProcessor.process
          (HintGenerator.generate_content llm text pt layer locale grade)
          none).was_filtered = true ∧
        (HintPostProcessor.process
          (HintGenerator.generate_content llm text pt layer locale grade)
          none).content =
          HintGenerator.generate_content llm text pt layer locale grade ∧
        (HintGenerator.generate llm text pt layer seq dg locale grade).content =
          HintGenerator.generate_content llm text pt layer locale grade) ∧
      ((HintPostProcessor.process
          (HintGenerator.generate_content llm text pt layer locale grade)
          none).filter_reason = some "answer_leak" ∨
        (HintPostProcessor.process
          (HintGenerator.generate_content llm text pt layer locale grade)
          none).filter_reason = some "direct_answer_leak" →
        (HintGenerator.generate llm text pt layer seq dg locale grade).content =
          HintGenerator.get_fallback pt layer locale) := by
  intro llm text pt layer seq dg locale grade
  exact hint_final_content_reason_cases
    (HintGenerator.generate_content llm text pt layer locale grade) pt layer locale

set_option maxRecDepth 8192 in
/-- Witness for the C8 theorem: a collaborator wording containing the
negative word "mistake" is flagged but returned unmodified. -/
theorem negative_word_informational_witness :
    (HintGenerator.generate (some (fun _ => LLMOutcome.ok
        "It is easy to make a mistake here; check each side.")) "2+2" .UNKNOWN
        .CONCEPT 1 false "en-US" none).content =
      "It is easy to make a mistake here; check each side." :=
  ((negative_word_informational (some (fun _ => LLMOutcome.ok
      "It is easy to make a mistake here; check each side.")) "2+2" .UNKNOWN
      .CONCEPT 1 false "en-US" none).1 (by decide)).2.2
